import Mathlib

/-!
Verification of the persona configuration and validation engine of the
ag2-persona library: a shallow embedding in Lean of the builder, validator,
system-message composer, Markdown-section parser, and the deferred (async)
builder, together with theorems about the documented behaviour.

Python values that can flow through the untyped configuration dictionaries
are modelled by the inductive type PyVal; Python truthiness, str() rendering,
type() naming and dictionary primitives are modelled explicitly.  Fallible
Python methods (those that raise) return Except String.  Logging is modelled
by returning the list of emitted warning messages.  Real dates are modelled
by passing the current date string as an explicit parameter.
-/

namespace AG2Persona

/-- A Python value as it appears in the persona configuration dictionaries:
None, bool, int, str, list, or dict with string keys.  (Floats do not occur
in any behaviour verified here: where the source examples use a float such
as a temperature, only the presence of its key matters.) -/
inductive PyVal where
  | none : PyVal
  | bool : Bool → PyVal
  | int : Int → PyVal
  | str : String → PyVal
  | list : List PyVal → PyVal
  | dict : List (String × PyVal) → PyVal

/-- Python truthiness: None and False are falsy, numbers are truthy unless
zero, strings and containers are truthy unless empty. -/
def truthy : PyVal → Bool
  | .none => false
  | .bool b => b
  | .int n => n != 0
  | .str s => !s.isEmpty
  | .list xs => !xs.isEmpty
  | .dict kvs => !kvs.isEmpty

/-- A single-quote character as a string (used to build the quoted names that
appear in Python error messages). -/
def sq : String := (Char.ofNat 39).toString

/-- Wrap a string in single quotes, as Python f-strings with {x!r}-style
manual quoting do in the error messages of this library. -/
def quoted (s : String) : String := sq ++ s ++ sq

/-- Python str.join: join a list of strings with a separator.  Matches
sep.join(parts) from the source. -/
def joinSep (sep : String) : List String → String
  | [] => ""
  | [x] => x
  | x :: xs => x ++ sep ++ joinSep sep xs

/-- Concatenation of a list of strings with no separator. -/
def concatList : List String → String
  | [] => ""
  | x :: xs => x ++ concatList xs

mutual

/-- Python str() of a value, as used when a value is interpolated into an
f-string.  For strings it is the string itself; containers render their
elements with repr().  (repr of a string is approximated as the string in
single quotes, which is exact for the names appearing in this development.) -/
def pyStr : PyVal → String
  | .none => "None"
  | .bool b => if b then "True" else "False"
  | .int n => toString n
  | .str s => s
  | .list xs => "[" ++ pyStrJoin xs ++ "]"
  | .dict kvs => "\x7b" ++ pyStrJoinDict kvs ++ "\x7d"

/-- Python repr() of a value, used for elements inside containers: it
differs from str() only on strings, which it wraps in quotes. -/
def pyRepr : PyVal → String
  | .none => "None"
  | .bool b => if b then "True" else "False"
  | .int n => toString n
  | .str s => quoted s
  | .list xs => "[" ++ pyStrJoin xs ++ "]"
  | .dict kvs => "\x7b" ++ pyStrJoinDict kvs ++ "\x7d"

def pyStrJoin : List PyVal → String
  | [] => ""
  | [x] => pyRepr x
  | x :: xs => pyRepr x ++ ", " ++ pyStrJoin xs

def pyStrJoinDict : List (String × PyVal) → String
  | [] => ""
  | [(k, v)] => quoted k ++ ": " ++ pyRepr v
  | (k, v) :: xs => quoted k ++ ": " ++ pyRepr v ++ ", " ++ pyStrJoinDict xs

end

/-- Python str(type(v)), as interpolated into the "got {type(...)}" error
messages. -/
def pyTypeName : PyVal → String
  | .none => "<class " ++ quoted ("NoneType") ++ ">"
  | .bool _ => "<class " ++ quoted ("bool") ++ ">"
  | .int _ => "<class " ++ quoted ("int") ++ ">"
  | .str _ => "<class " ++ quoted ("str") ++ ">"
  | .list _ => "<class " ++ quoted ("list") ++ ">"
  | .dict _ => "<class " ++ quoted ("dict") ++ ">"

/-- Look a key up in a Python dict (modelled as an association list with
distinct keys, in insertion order).  Models d.get(k) returning None / d[k]. -/
def dictGet (d : List (String × PyVal)) (k : String) : Option PyVal :=
  (d.find? (fun kv => kv.1 == k)).map (fun kv => kv.2)

/-- Python d.get(k, default). -/
def dictGetD (d : List (String × PyVal)) (k : String) (default : PyVal) : PyVal :=
  (dictGet d k).getD default

/-- Python k in d (dictionary key membership). -/
def containsKey (d : List (String × PyVal)) (k : String) : Bool :=
  (dictGet d k).isSome

/-- Python d1.update(d2): existing keys keep their position and take the new
value, new keys are appended in order. -/
def dictUpdate (d1 d2 : List (String × PyVal)) : List (String × PyVal) :=
  (d1.map (fun kv =>
    match dictGet d2 kv.1 with
    | some v => (kv.1, v)
    | Option.none => kv))
  ++ d2.filter (fun kv => !(containsKey d1 kv.1))

/-- Is the value Python None. -/
def isNone : PyVal → Bool
  | .none => true
  | _ => false

/-- Is the value exactly the Python constant False (identity comparison
`is False` in the source). -/
def isFalseV : PyVal → Bool
  | .bool false => true
  | _ => false

/-- Python isinstance(v, list). -/
def isList : PyVal → Bool
  | .list _ => true
  | _ => false

/-- Python isinstance(v, dict). -/
def isDict : PyVal → Bool
  | .dict _ => true
  | _ => false

/-- The key/value entries of a value known to be a dict (empty otherwise). -/
def asDict : PyVal → List (String × PyVal)
  | .dict kvs => kvs
  | _ => []

/-- Python membership test c in xs for a str needle c (the only shape at
which the source applies it: the constraint argument is annotated str).
Python compares c == x elementwise; a str never equals a value of another
type, so no recursion into nested values is involved.  The field it is
applied to is annotated list[str]; membership in a non-list would behave
differently in Python (substring test on a str, key test on a dict) but is
never exercised by the verified code paths. -/
def pyContainsStr (container : PyVal) (c : String) : Bool :=
  match container with
  | .list xs =>
    xs.any (fun x =>
      match x with
      | .str s => s == c
      | _ => false)
  | _ => false

/-- Python list.append; appending to a value that is not a list raises
AttributeError in Python and is unreachable under the list[str] annotation
of the field this is applied to, so it is modelled as the identity there. -/
def pyAppend : PyVal → PyVal → PyVal
  | .list xs, v => .list (xs ++ [v])
  | other, _ => other

/-- Convert an optional string (Python str or None) to a PyVal. -/
def optStr : Option String → PyVal
  | some s => .str s
  | Option.none => .none

/-! ## PersonaBuilder (persona_builder.py): working state -/

/-- The mutable working state of PersonaBuilder.__init__: name (public
attribute, str or None), and the underscore-prefixed fields _role, _goal,
_backstory, _constraints, _llm_config, _description, _version, _metadata.
The untyped configuration loaders can place any Python value into these
fields, so they are modelled as PyVal.  The opaque additional_kwargs
pass-through map for the external agent framework is not modelled: no
verified behaviour inspects it. -/
structure PersonaBuilder where
  name : PyVal := PyVal.none
  role : PyVal := PyVal.none
  goal : PyVal := PyVal.none
  backstory : PyVal := PyVal.str ""
  constraints : PyVal := PyVal.list []
  llm_config : PyVal := PyVal.none
  description : PyVal := PyVal.none
  version : PyVal := PyVal.none
  metadata : List (String × PyVal) := []

/-- PersonaBuilder() with no name argument. -/
def PersonaBuilder.init : PersonaBuilder := {}

/-- PersonaBuilder.add_constraint: append the constraint if it is non-empty
and not already present. -/
def PersonaBuilder.add_constraint (b : PersonaBuilder) (c : String) : PersonaBuilder :=
  if truthy (PyVal.str c) && !(pyContainsStr b.constraints c) then
    { b with constraints := pyAppend b.constraints (PyVal.str c) }
  else b

/-- The PersonaBuilder.constraints fluent method: replace the entire
constraint list with the argument. -/
def PersonaBuilder.set_constraints (b : PersonaBuilder) (cs : List String) : PersonaBuilder :=
  { b with constraints := PyVal.list (cs.map PyVal.str) }

/-- The PersonaBuilder.llm_config fluent method: set _llm_config. -/
def PersonaBuilder.set_llm_config (b : PersonaBuilder) (config : PyVal) : PersonaBuilder :=
  { b with llm_config := config }

/-- PersonaBuilder._resolve_name: priority chain over the existing builder
name, the parsed configuration name (passed through str()), the provided
fallback name, and the literal default. -/
def resolve_name (selfName : PyVal) (config : List (String × PyVal))
    (fallback_name : Option String) : PyVal :=
  if truthy selfName then selfName
  else if truthy (dictGetD config ("name") PyVal.none) then
    PyVal.str (pyStr (dictGetD config ("name") PyVal.none))
  else
    match fallback_name with
    | some f => if !f.isEmpty then PyVal.str f else PyVal.str ("unnamed_persona")
    | Option.none => PyVal.str ("unnamed_persona")

/-- Claim-side definition of the name resolution priority chain, written
from the specification text: first non-empty among builder name, config
name, fallback, with literal default unnamed_persona.  To be compared with
resolve_name, which is translated from the source. -/
def firstNonEmpty : List (Option String) → String → String
  | [], d => d
  | Option.none :: rest, d => firstNonEmpty rest d
  | some s :: rest, d => if s.isEmpty then firstNonEmpty rest d else s

/-- Claim-side name resolution (from the specification words). -/
def specResolveName (builderName configName fallback : Option String) : String :=
  firstNonEmpty [builderName, configName, fallback] ("unnamed_persona")

/-- The tail of PersonaBuilder.from_dict after the metadata merge: name
adoption when the builder has no name yet, llm_config copy when the key is
present, and the final constraints type check. -/
def PersonaBuilder.from_dict_rest (b : PersonaBuilder) (kvs : List (String × PyVal)) :
    Except String PersonaBuilder :=
  let b2 : PersonaBuilder :=
    if !truthy b.name && containsKey kvs ("name") then
      { b with name := dictGetD kvs ("name") PyVal.none }
    else b
  let b3 : PersonaBuilder :=
    if containsKey kvs ("llm_config") then
      { b2 with llm_config := dictGetD kvs ("llm_config") PyVal.none }
    else b2
  if truthy b3.constraints && !(isList b3.constraints) then
    Except.error ("Constraints must be a list for persona " ++ quoted (pyStr b3.name)
      ++ ", got " ++ pyTypeName b3.constraints)
  else Except.ok b3

/-- PersonaBuilder.from_dict.  Translated statement by statement: it copies
role, goal, backstory, constraints and version from the dictionary, merges
metadata, adopts the name when the builder has none, copies llm_config when
the key is present, and finally rejects a truthy non-list constraints value.
A non-dict argument is rejected immediately.  (Python dict.update raises on
a non-mapping metadata value; that raise is modelled as the error case.) -/
def PersonaBuilder.from_dict (b : PersonaBuilder) (config_dict : PyVal) :
    Except String PersonaBuilder :=
  match config_dict with
  | PyVal.dict kvs =>
    let b1 : PersonaBuilder :=
      { b with
        role := dictGetD kvs ("role") PyVal.none,
        goal := dictGetD kvs ("goal") PyVal.none,
        backstory := dictGetD kvs ("backstory") (PyVal.str ""),
        constraints := dictGetD kvs ("constraints") (PyVal.list []),
        version := dictGetD kvs ("version") PyVal.none }
    match dictGet kvs ("metadata") with
    | some (PyVal.dict m) =>
      PersonaBuilder.from_dict_rest { b1 with metadata := dictUpdate b1.metadata m } kvs
    | some v => Except.error ("TypeError: cannot update metadata from " ++ pyTypeName v)
    | Option.none => PersonaBuilder.from_dict_rest b1 kvs
  | _ => Except.error ("Configuration must be a dictionary for persona " ++ quoted (pyStr b.name))

/-! ## PersonaBuilder.validate and the independent validation rules -/

/-- PersonaBuilder.validate error collection, translated statement by
statement: the errors list starts empty and each rule appends its message
in turn. -/
def validationErrors (b : PersonaBuilder) : List String :=
  let errors : List String := []
  let errors := if !truthy b.name then errors ++ ["Persona name is required"] else errors
  let errors := if !truthy b.role then
      errors ++ ["Role is required for persona " ++ quoted (pyStr b.name)] else errors
  let errors := if !truthy b.goal then
      errors ++ ["Goal is required for persona " ++ quoted (pyStr b.name)] else errors
  let errors := if truthy b.constraints && !(isList b.constraints) then
      errors ++ ["Constraints must be a list for persona " ++ quoted (pyStr b.name)
        ++ ", got " ++ pyTypeName b.constraints] else errors
  let errors := if !(isNone b.llm_config) && !(isFalseV b.llm_config) then
      (if !(isDict b.llm_config) then
        errors ++ ["LLM config must be a dictionary for persona " ++ quoted (pyStr b.name)
          ++ ", got " ++ pyTypeName b.llm_config]
      else if !(containsKey (asDict b.llm_config) ("config_list"))
          && !(containsKey (asDict b.llm_config) ("model")) then
        errors ++ ["LLM config must contain " ++ quoted ("config_list") ++ " or "
          ++ quoted ("model") ++ " for persona " ++ quoted (pyStr b.name)]
      else errors)
    else errors
  errors

/-- The name rule of the validator, taken in isolation. -/
def nameRuleErrors (b : PersonaBuilder) : List String :=
  if !truthy b.name then ["Persona name is required"] else []

/-- The role rule of the validator, taken in isolation. -/
def roleRuleErrors (b : PersonaBuilder) : List String :=
  if !truthy b.role then ["Role is required for persona " ++ quoted (pyStr b.name)] else []

/-- The goal rule of the validator, taken in isolation. -/
def goalRuleErrors (b : PersonaBuilder) : List String :=
  if !truthy b.goal then ["Goal is required for persona " ++ quoted (pyStr b.name)] else []

/-- The constraints-shape rule of the validator, taken in isolation. -/
def constraintsRuleErrors (b : PersonaBuilder) : List String :=
  if truthy b.constraints && !(isList b.constraints) then
    ["Constraints must be a list for persona " ++ quoted (pyStr b.name)
      ++ ", got " ++ pyTypeName b.constraints]
  else []

/-- The llm_config rule of the validator, taken in isolation. -/
def llmConfigRuleErrors (b : PersonaBuilder) : List String :=
  if !(isNone b.llm_config) && !(isFalseV b.llm_config) then
    if !(isDict b.llm_config) then
      ["LLM config must be a dictionary for persona " ++ quoted (pyStr b.name)
        ++ ", got " ++ pyTypeName b.llm_config]
    else if !(containsKey (asDict b.llm_config) ("config_list"))
        && !(containsKey (asDict b.llm_config) ("model")) then
      ["LLM config must contain " ++ quoted ("config_list") ++ " or "
        ++ quoted ("model") ++ " for persona " ++ quoted (pyStr b.name)]
    else []
  else []

/-- PersonaBuilder.validate: raise a single aggregated error when any rule
failed, otherwise succeed. -/
def PersonaBuilder.validate (b : PersonaBuilder) : Except String Unit :=
  let errors := validationErrors b
  if errors.isEmpty then Except.ok ()
  else Except.error ("Persona validation failed for " ++ quoted (pyStr b.name) ++ ":\n"
    ++ joinSep "\n" (errors.map (fun e => "  - " ++ e)))

/-! ## PersonaAgent (persona_agent.py) -/

/-- The finalized agent object: the persona attributes stored by
PersonaAgent.__init__ plus the rendered system message.  The external
ConversableAgent base stores llm_config verbatim from the constructor
keywords, which is what to_dict later reads back. -/
structure PersonaAgent where
  name : PyVal
  role : PyVal
  goal : PyVal
  backstory : PyVal
  constraints : PyVal
  description : PyVal
  version : PyVal
  metadata : List (String × PyVal)
  llm_config : PyVal
  system_message : String

/-- The elements produced by iterating a Python value with a for loop: the
constraints field is annotated list[str]; iterating a str yields its
characters and iterating a dict yields its keys; iterating any other value
raises TypeError in Python and is unreachable after validation. -/
def pyElems : PyVal → List PyVal
  | .list xs => xs
  | .str s => s.data.map (fun c => PyVal.str c.toString)
  | .dict kvs => kvs.map (fun kv => PyVal.str kv.1)
  | _ => []

/-- PersonaAgent._build_system_message: the role heading, the goal section,
an optional background section, an optional constraints section with one
bullet per constraint, joined with a newline (each later part carries its
own leading newline, producing blank-line separation). -/
def build_system_message (role goal backstory constraints : PyVal) : String :=
  let parts := ["# Role: " ++ pyStr role]
  let parts := parts ++ ["\n## Goal\n" ++ pyStr goal]
  let parts := if truthy backstory then parts ++ ["\n## Background\n" ++ pyStr backstory] else parts
  let parts := if truthy constraints then
      parts ++ ["\n## Constraints"] ++ (pyElems constraints).map (fun c => "- " ++ pyStr c)
    else parts
  joinSep "\n" parts

/-- PersonaAgent.__init__ (without an extra system_message keyword, which no
verified behaviour uses): store the persona fields, default the description
to "role: goal" when None, and render the system message. -/
def mkPersonaAgent (name role goal backstory constraints description version : PyVal)
    (metadata : List (String × PyVal)) (llm_config : PyVal) : PersonaAgent :=
  let descr :=
    match description with
    | PyVal.none => PyVal.str (pyStr role ++ ": " ++ pyStr goal)
    | d => d
  { name := name, role := role, goal := goal, backstory := backstory,
    constraints := constraints, description := descr, version := version,
    metadata := metadata, llm_config := llm_config,
    system_message := build_system_message role goal backstory constraints }

/-- PersonaAgent.to_dict: export the persona configuration.  The metadata
dict is exported as a value (the source returns self._metadata). -/
def to_dict (a : PersonaAgent) : List (String × PyVal) :=
  [(("name"), a.name), (("role"), a.role), (("goal"), a.goal),
   (("backstory"), a.backstory), (("constraints"), a.constraints),
   (("llm_config"), a.llm_config), (("version"), a.version),
   (("metadata"), PyVal.dict a.metadata)]

/-- PersonaAgent.add_constraint: append when not already present and rebuild
the system message; otherwise leave the agent untouched. -/
def PersonaAgent.add_constraint (a : PersonaAgent) (c : String) : PersonaAgent :=
  if !(pyContainsStr a.constraints c) then
    let a1 := { a with constraints := pyAppend a.constraints (PyVal.str c) }
    { a1 with system_message := build_system_message a1.role a1.goal a1.backstory a1.constraints }
  else a

/-- PersonaBuilder.build: validate, then construct the agent from the
builder fields.  (The source threads version and metadata through the
keyword dictionary; the net effect is that the agent receives exactly the
builder values, since the PersonaAgent defaults coincide with the builder
defaults for the unset cases.) -/
def PersonaBuilder.build (b : PersonaBuilder) : Except String PersonaAgent :=
  match PersonaBuilder.validate b with
  | Except.error e => Except.error e
  | Except.ok _ =>
    Except.ok (mkPersonaAgent b.name b.role b.goal b.backstory b.constraints
      b.description b.version b.metadata b.llm_config)

/-- PersonaBuilder.build with the builder state threaded explicitly, to make
mutation (or its absence) observable: the source assigns no attribute of
self anywhere in validate or build, so the state out equals the state in on
both the failure and the success path. -/
def PersonaBuilder.build_st (b : PersonaBuilder) :
    PersonaBuilder × Except String PersonaAgent :=
  match PersonaBuilder.validate b with
  | Except.error e => (b, Except.error e)
  | Except.ok _ =>
    (b, Except.ok (mkPersonaAgent b.name b.role b.goal b.backstory b.constraints
      b.description b.version b.metadata b.llm_config))

/-! ## PersonaMarkdownParser (parsers.py)

The YAML front-matter split itself is performed by external libraries
(python-frontmatter and ruamel.yaml); the functions below model the parser
from the point where the front-matter mapping (metadata) and the Markdown
body (content) are available, which is everything parsers.py implements
itself. -/

/-- Python str.strip: remove leading and trailing whitespace.  Implemented
on the character list of the string. -/
def strip (s : String) : String :=
  String.mk (((s.data.dropWhile Char.isWhitespace).reverse.dropWhile Char.isWhitespace).reverse)

/-- Python str.splitlines, modelled as splitting on the newline character.
A trailing newline yields one extra empty line compared to Python, which
changes nothing downstream because section content is stripped. -/
def splitLinesAux : List Char → List Char → List String
  | [], acc => [String.mk acc.reverse]
  | c :: cs, acc =>
    if c == Char.ofNat 10 then String.mk acc.reverse :: splitLinesAux cs []
    else splitLinesAux cs (c :: acc)

/-- Split a string into its lines. -/
def splitLines (s : String) : List String := splitLinesAux s.data []

/-- Helper for the header regex: after the leading hash marks there must be
at least one whitespace character and then a non-empty remainder, which is
the captured heading text.  The line has already been stripped, so the
remainder carries no trailing whitespace and the greedy whitespace run is
exactly the leading whitespace. -/
def headerAfterHashes (rest : List Char) : Option String :=
  match rest with
  | [] => Option.none
  | c :: cs =>
    if c.isWhitespace then
      let g := (c :: cs).dropWhile Char.isWhitespace
      if g.isEmpty then Option.none else some (String.mk g)
    else Option.none

/-- The compiled header pattern of _parse_markdown_sections applied to the
stripped line: one or two leading hash marks followed by whitespace and the
captured heading text.  Three or more hash marks never match: after the
greedy two-hash prefix the next character is a hash, not whitespace, and
backtracking to one hash meets the second hash. -/
def headerName (line : String) : Option String :=
  match (strip line).data with
  | c1 :: c2 :: rest =>
    if c1 == Char.ofNat 35 then
      if c2 == Char.ofNat 35 then headerAfterHashes rest
      else headerAfterHashes (c2 :: rest)
    else Option.none
  | _ => Option.none

/-- Section key normalisation: lowercase the heading and replace spaces with
underscores (the heading text is ASCII in every verified behaviour, where
Python str.lower and Char.toLower agree). -/
def sectionKey (h : String) : String :=
  String.mk (h.data.map (fun c => if c == Char.ofNat 32 then Char.ofNat 95 else c.toLower))

/-- Assignment into the sections dictionary (string keys and values). -/
def setKey (d : List (String × String)) (k v : String) : List (String × String) :=
  if d.any (fun kv => kv.1 == k) then
    d.map (fun kv => if kv.1 == k then (k, v) else kv)
  else d ++ [(k, v)]

/-- Lookup with default in the sections dictionary (sections.get(k, d)). -/
def sectionsGetD (d : List (String × String)) (k : String) (default : String) : String :=
  match d.find? (fun kv => kv.1 == k) with
  | some kv => kv.2
  | Option.none => default

/-- The single pass of _parse_markdown_sections over the lines: on a header
line, save the previous section (only when it has accumulated content) and
start a new one; otherwise accumulate the line into the current section, or
drop it when no section has started yet.  At the end, save the last section
when it has content. -/
def sectionsLoop : List String → Option String → List String → List (String × String) →
    List (String × String)
  | [], cur, content, acc =>
    (match cur with
     | some sec => if !content.isEmpty then setKey acc sec (strip (joinSep "\n" content)) else acc
     | Option.none => acc)
  | line :: rest, cur, content, acc =>
    match headerName line with
    | some h =>
      let acc1 :=
        match cur with
        | some sec => if !content.isEmpty then setKey acc sec (strip (joinSep "\n" content)) else acc
        | Option.none => acc
      sectionsLoop rest (some (sectionKey h)) [] acc1
    | Option.none =>
      match cur with
      | some _ => sectionsLoop rest cur (content ++ [line]) acc
      | Option.none => sectionsLoop rest cur content acc

/-- PersonaMarkdownParser._parse_markdown_sections: a single pass over the
lines of the body. -/
def parse_markdown_sections (content : String) : List (String × String) :=
  sectionsLoop (splitLines content) Option.none [] []

/-- The persona configuration dictionary assembled by
parse_persona_markdown.  Every key is always present (possibly with value
None), which matters for the .get calls with defaults made on it later. -/
structure PersonaConfig where
  name : PyVal
  role : PyVal
  goal : PyVal
  backstory : String
  constraints : PyVal
  llm_config : PyVal
  description : PyVal
  version : PyVal
  metadata : PyVal

/-- The config literal built in parse_persona_markdown before constraints
and version handling: SPEC fields from front matter, backstory from the
body sections (stripped), description from the body section if non-empty
else from front matter. -/
def initialConfig (metadata : List (String × PyVal)) (content : String) : PersonaConfig :=
  let sections := parse_markdown_sections content
  { name := dictGetD metadata ("name") PyVal.none,
    role := dictGetD metadata ("role") PyVal.none,
    goal := dictGetD metadata ("goal") PyVal.none,
    backstory := strip (sectionsGetD sections ("backstory") ""),
    constraints := PyVal.list [],
    llm_config := dictGetD metadata ("llm_config") PyVal.none,
    description :=
      (let d := strip (sectionsGetD sections ("description") "")
       if !d.isEmpty then PyVal.str d else dictGetD metadata ("description") PyVal.none),
    version := dictGetD metadata ("version") PyVal.none,
    metadata := dictGetD metadata ("metadata") (PyVal.dict []) }

/-- PersonaMarkdownParser._apply_constraints: constraints come only from
front matter; a present non-list value raises, a missing key leaves the
empty default. -/
def apply_constraints (metadata : List (String × PyVal)) (config : PersonaConfig) :
    Except String PersonaConfig :=
  match dictGet metadata ("constraints") with
  | some (PyVal.list xs) => Except.ok { config with constraints := PyVal.list xs }
  | some v => Except.error ("Constraints in metadata must be a list, got " ++ pyTypeName v)
  | Option.none => Except.ok config

/-- PersonaMarkdownParser._handle_version: when the version value is falsy,
set it to the current date and emit one warning.  The source computes
persona_name as config.get of the name key with default unknown, but the
name key is always present in the config dictionary (possibly holding
None), so the stored value is used and the default is dead; a missing name
therefore renders as None in the warning.  The current date is an explicit
parameter (today), and the emitted warnings are returned. -/
def handle_version (config : PersonaConfig) (today : String) : PersonaConfig × List String :=
  if !truthy config.version then
    ({ config with version := PyVal.str today },
     ["Version key missing for persona " ++ quoted (pyStr config.name)
       ++ ". Defaulting to today" ++ sq ++ "s date: " ++ today])
  else (config, [])

/-- PersonaMarkdownParser._validate_required_fields error collection,
translated statement by statement. -/
def requiredFieldErrors (config : PersonaConfig) : List String :=
  let errors : List String := []
  let errors := if !truthy config.role then
      errors ++ [sq ++ "role" ++ sq ++ " is required in frontmatter"] else errors
  let errors := if !truthy config.goal then
      errors ++ [sq ++ "goal" ++ sq ++ " is required in frontmatter"] else errors
  let errors := if (strip config.backstory).isEmpty then
      errors ++ [sq ++ "# Backstory" ++ sq ++ " section is required in markdown content"]
    else errors
  errors

/-- PersonaMarkdownParser._validate_required_fields: aggregate the missing
required fields into one error naming the persona (again via the dead
unknown default: the name key is always present). -/
def validate_required_fields (config : PersonaConfig) : Except String Unit :=
  let errors := requiredFieldErrors config
  if errors.isEmpty then Except.ok ()
  else Except.error ("Required fields missing for persona " ++ quoted (pyStr config.name)
    ++ ":\n" ++ joinSep "\n" (errors.map (fun e => "  - " ++ e)))

/-- PersonaMarkdownParser.parse_persona_markdown from the point where the
front matter has been split off: build the config, apply constraints (may
raise), default the version (may warn), validate required fields (may
raise).  On the validation-error path the warning has already been logged
by Python; this embedding returns warnings only on the success path. -/
def parse_persona_markdown (metadata : List (String × PyVal)) (content : String)
    (today : String) : Except String (PersonaConfig × List String) :=
  match apply_constraints metadata (initialConfig metadata content) with
  | Except.error e => Except.error e
  | Except.ok config0 =>
    let cw := handle_version config0 today
    match validate_required_fields cw.1 with
    | Except.error e => Except.error e
    | Except.ok _ => Except.ok (cw.1, cw.2)

/-- Claim-side predicate: the front-matter role value is missing or an empty
string (the specification words for the role rule). -/
def mdRoleMissing (metadata : List (String × PyVal)) : Bool :=
  match dictGet metadata ("role") with
  | Option.none => true
  | some (PyVal.str s) => s.isEmpty
  | some _ => false

/-- Claim-side predicate: the front-matter goal value is missing or an empty
string. -/
def mdGoalMissing (metadata : List (String × PyVal)) : Bool :=
  match dictGet metadata ("goal") with
  | Option.none => true
  | some (PyVal.str s) => s.isEmpty
  | some _ => false

/-- Claim-side predicate: the backstory section of the body is empty after
trimming. -/
def mdBackstoryMissing (metadata : List (String × PyVal)) (content : String) : Bool :=
  (strip (initialConfig metadata content).backstory).isEmpty

/-- Claim-side list of required-field messages, one per violated rule in
the fixed role, goal, backstory order, with the exact message texts of the
specification. -/
def mdErrors (metadata : List (String × PyVal)) (content : String) : List String :=
  (if mdRoleMissing metadata then [sq ++ "role" ++ sq ++ " is required in frontmatter"] else [])
  ++ (if mdGoalMissing metadata then [sq ++ "goal" ++ sq ++ " is required in frontmatter"] else [])
  ++ (if mdBackstoryMissing metadata content then
        [sq ++ "# Backstory" ++ sq ++ " section is required in markdown content"] else [])

/-- Claim-side aggregated required-fields message, prefixed by the persona
name. -/
def mdValidationMsg (metadata : List (String × PyVal)) (content : String) : String :=
  "Required fields missing for persona " ++ quoted (pyStr (dictGetD metadata ("name") PyVal.none))
    ++ ":\n" ++ joinSep "\n" ((mdErrors metadata content).map (fun e => "  - " ++ e))

/-! ## AsyncPersonaBuilder (async_persona_builder.py)

The deferred builder records steps and executes them during build.  A step
is modelled as deep syntax; executing one yields the possibly partially
updated state together with an optional raised error (a Python raise leaves
the mutations made before it in place). -/

/-- One queued fluent operation of AsyncPersonaBuilder.  File-loading steps
(from_yaml) differ from from_dict only in how the dictionary is obtained
and are not modelled separately. -/
inductive AsyncStep where
  | role (r : String)
  | goal (g : String)
  | backstory (s : String)
  | add_constraint (c : String)
  | constraints (cs : List String)
  | llm_config (v : PyVal)
  | from_dict (d : PyVal)
  | extend_goal (g : String)

/-- The working state of AsyncPersonaBuilder: the constructor requires a
string name; the remaining fields start at the same defaults as the
synchronous builder.  There are no version or metadata fields in the async
builder. -/
structure AsyncPersonaBuilder where
  name : String
  role : PyVal := PyVal.none
  goal : PyVal := PyVal.none
  backstory : PyVal := PyVal.str ""
  constraints : PyVal := PyVal.list []
  llm_config : PyVal := PyVal.none
  description : PyVal := PyVal.none

/-- The body of the deferred from_dict step: assign role, goal and backstory
from the dictionary, then type-check the constraints value and assign it;
on a raise the earlier assignments remain in place. -/
def asyncFromDictStep (s : AsyncPersonaBuilder) (d : PyVal) :
    AsyncPersonaBuilder × Option String :=
  match d with
  | PyVal.dict kvs =>
    let s1 : AsyncPersonaBuilder :=
      { s with
        role := dictGetD kvs ("role") PyVal.none,
        goal := dictGetD kvs ("goal") PyVal.none,
        backstory := dictGetD kvs ("backstory") (PyVal.str "") }
    let craw := dictGetD kvs ("constraints") (PyVal.list [])
    if truthy craw && !(isList craw) then
      (s1, some ("Constraints must be a list for persona " ++ quoted s.name
        ++ ", got " ++ pyTypeName craw))
    else ({ s1 with constraints := craw }, Option.none)
  | _ => (s, some ("Configuration must be a dictionary for persona " ++ quoted s.name))

/-- Execute one queued step against the working state. -/
def execStep (s : AsyncPersonaBuilder) : AsyncStep → AsyncPersonaBuilder × Option String
  | .role r => ({ s with role := PyVal.str r }, Option.none)
  | .goal g => ({ s with goal := PyVal.str g }, Option.none)
  | .backstory b => ({ s with backstory := PyVal.str b }, Option.none)
  | .add_constraint c =>
    (if truthy (PyVal.str c) && !(pyContainsStr s.constraints c) then
      { s with constraints := pyAppend s.constraints (PyVal.str c) }
     else s, Option.none)
  | .constraints cs => ({ s with constraints := PyVal.list (cs.map PyVal.str) }, Option.none)
  | .llm_config v => ({ s with llm_config := v }, Option.none)
  | .from_dict d => asyncFromDictStep s d
  | .extend_goal g =>
    (if truthy s.goal then { s with goal := PyVal.str (pyStr s.goal ++ ". Additionally, " ++ g) }
     else { s with goal := PyVal.str g }, Option.none)

/-- Execute the queued steps in enqueue order, stopping at the first raised
error; the state reached so far is kept either way. -/
def execSteps : List AsyncStep → AsyncPersonaBuilder → AsyncPersonaBuilder × Option String
  | [], s => (s, Option.none)
  | step :: rest, s =>
    match execStep s step with
    | (s1, Option.none) => execSteps rest s1
    | (s1, some e) => (s1, some e)

/-- AsyncPersonaBuilder.validate error collection, translated statement by
statement: name, role and goal rules as in the synchronous builder, then a
single llm_config check that fires only when the value is a dict lacking
both config_list and model.  (There is no constraints rule and no
must-be-a-dictionary rule here.)  The message interpolates the Python list
literal of the required keys. -/
def asyncValidationErrors (s : AsyncPersonaBuilder) : List String :=
  let errors : List String := []
  let errors := if s.name.isEmpty then errors ++ ["Persona name is required"] else errors
  let errors := if !truthy s.role then
      errors ++ ["Role is required for persona " ++ quoted s.name] else errors
  let errors := if !truthy s.goal then
      errors ++ ["Goal is required for persona " ++ quoted s.name] else errors
  let errors := if isDict s.llm_config
      && !(containsKey (asDict s.llm_config) ("config_list"))
      && !(containsKey (asDict s.llm_config) ("model")) then
      errors ++ ["LLM config must contain one of [" ++ quoted ("config_list") ++ ", "
        ++ quoted ("model") ++ "] for persona " ++ quoted s.name]
    else errors
  errors

/-- The name rule of the async validator, taken in isolation. -/
def asyncNameRuleErrors (s : AsyncPersonaBuilder) : List String :=
  if s.name.isEmpty then ["Persona name is required"] else []

/-- The role rule of the async validator, taken in isolation. -/
def asyncRoleRuleErrors (s : AsyncPersonaBuilder) : List String :=
  if !truthy s.role then ["Role is required for persona " ++ quoted s.name] else []

/-- The goal rule of the async validator, taken in isolation. -/
def asyncGoalRuleErrors (s : AsyncPersonaBuilder) : List String :=
  if !truthy s.goal then ["Goal is required for persona " ++ quoted s.name] else []

/-- The llm_config rule of the async validator, taken in isolation. -/
def asyncLlmRuleErrors (s : AsyncPersonaBuilder) : List String :=
  if isDict s.llm_config
      && !(containsKey (asDict s.llm_config) ("config_list"))
      && !(containsKey (asDict s.llm_config) ("model")) then
    ["LLM config must contain one of [" ++ quoted ("config_list") ++ ", "
      ++ quoted ("model") ++ "] for persona " ++ quoted s.name]
  else []

/-- AsyncPersonaBuilder.validate: raise a single aggregated error when any
of its rules failed. -/
def AsyncPersonaBuilder.validate (s : AsyncPersonaBuilder) : Except String Unit :=
  let errors := asyncValidationErrors s
  if errors.isEmpty then Except.ok ()
  else Except.error ("Persona validation failed for " ++ quoted s.name ++ ":\n"
    ++ joinSep "\n" (errors.map (fun e => "  - " ++ e)))

/-- AsyncPersonaBuilder.build: drain the queue in order, then validate, then
construct the agent.  The result pairs the final working state (which keeps
every mutation made by the executed steps, also on failure) with the
outcome.  The async builder passes no version and no metadata, so the agent
receives the PersonaAgent defaults None and the empty dict. -/
def asyncBuild (steps : List AsyncStep) (s : AsyncPersonaBuilder) :
    AsyncPersonaBuilder × Except String PersonaAgent :=
  match execSteps steps s with
  | (s1, some e) => (s1, Except.error e)
  | (s1, Option.none) =>
    match AsyncPersonaBuilder.validate s1 with
    | Except.error e => (s1, Except.error e)
    | Except.ok _ =>
      (s1, Except.ok (mkPersonaAgent (PyVal.str s1.name) s1.role s1.goal s1.backstory
        s1.constraints s1.description PyVal.none [] s1.llm_config))

/-- The aggregated validation failure message shared by the synchronous and
asynchronous validators: a header naming the persona followed by one
indented line per collected error. -/
def validationFailureMsg (name : String) (msgs : List String) : String :=
  "Persona validation failed for " ++ quoted name ++ ":\n"
    ++ joinSep "\n" (msgs.map (fun e => "  - " ++ e))

/-- A builder whose name, role and goal have been set to the given strings
and whose llm_config is the given value, all other fields at their
constructor defaults. -/
def builderWith (name role goal : String) (lc : PyVal) : PersonaBuilder :=
  { PersonaBuilder.init with
    name := PyVal.str name, role := PyVal.str role, goal := PyVal.str goal, llm_config := lc }

/-- A builder violating four validation rules at once: no name, no role, a
non-list constraints value, and a mapping llm_config lacking both model and
config_list. -/
def cexB : PersonaBuilder :=
  { PersonaBuilder.init with
    goal := PyVal.str "G",
    constraints := PyVal.str "bad",
    llm_config := PyVal.dict [(("temperature"), PyVal.int 1)] }

/-! ## Theorems -/

theorem truthy_none_eq : truthy PyVal.none = false := rfl

theorem truthy_str_eq (s : String) : truthy (PyVal.str s) = !s.isEmpty := rfl

theorem truthy_list_eq (xs : List PyVal) : truthy (PyVal.list xs) = !xs.isEmpty := rfl

theorem pyStr_none_eq : pyStr PyVal.none = "None" := rfl

theorem pyStr_str_eq (s : String) : pyStr (PyVal.str s) = s := rfl

theorem pyElems_list_eq (xs : List PyVal) : pyElems (PyVal.list xs) = xs := rfl

/-- C1: name resolution is a fixed priority chain, first non-empty wins:
the resolved name is the already-set builder name if non-empty, else the
configuration name value if present and non-empty, else the caller-supplied
fallback if non-empty, else the literal unnamed_persona.  Stated by
comparing the source translation resolve_name with the claim-side
specResolveName on every builder name, configuration whose name entry (if
any) is the string configName, and optional fallback. -/
theorem resolve_name_priority_chain (builderName configName fallback : Option String)
    (config : List (String × PyVal))
    (hname : dictGet config ("name") = configName.map PyVal.str) :
    resolve_name (optStr builderName) config fallback =
      PyVal.str (specResolveName builderName configName fallback) := by
  cases builderName <;> cases configName <;> cases fallback <;>
    simp only [resolve_name, specResolveName, firstNonEmpty, optStr, dictGetD, hname,
      Option.map, Option.getD, truthy_none_eq, truthy_str_eq, pyStr_str_eq] <;>
    first
      | rfl
      | (split_ifs <;> simp_all)

/-- Witness for C1: the concrete priority table of the specification, with
builder name B, front-matter name F and fallback stem S. -/
theorem resolve_name_priority_chain_witness :
    resolve_name (optStr (some "B")) [(("name"), PyVal.str "F")] (some "S") = PyVal.str "B"
    ∧ resolve_name (optStr Option.none) [(("name"), PyVal.str "F")] (some "S") = PyVal.str "F"
    ∧ resolve_name (optStr Option.none) [] (some "S") = PyVal.str "S"
    ∧ resolve_name (optStr Option.none) [] Option.none = PyVal.str "unnamed_persona" := by
  refine ⟨?_, ?_, ?_, ?_⟩
  · exact (resolve_name_priority_chain (some "B") (some "F") (some "S")
      [(("name"), PyVal.str "F")] rfl).trans (by rfl)
  · exact (resolve_name_priority_chain Option.none (some "F") (some "S")
      [(("name"), PyVal.str "F")] rfl).trans (by rfl)
  · exact (resolve_name_priority_chain Option.none Option.none (some "S") [] rfl).trans (by rfl)
  · exact (resolve_name_priority_chain Option.none Option.none Option.none [] rfl).trans (by rfl)

/-- C4 (code bug): the dictionary-loading operation does apply llm_config
from the dictionary, although its own docstring and the specification say
it never does.  Evaluated at the failing input: a fresh builder (llm_config
None) fed a dictionary carrying an llm_config ends up holding that
llm_config. -/
theorem from_dict_loads_llm_config :
    Except.map (fun b => PersonaBuilder.llm_config b)
        (PersonaBuilder.from_dict PersonaBuilder.init
          (PyVal.dict [(("name"), PyVal.str "pm"), (("role"), PyVal.str "R"),
            (("goal"), PyVal.str "G"),
            (("llm_config"), PyVal.dict [(("model"), PyVal.str "gpt-4")])])) =
      Except.ok (PyVal.dict [(("model"), PyVal.str "gpt-4")])
    ∧ PersonaBuilder.init.llm_config = PyVal.none := ⟨rfl, rfl⟩

/-- C8 (code bug): when version is absent the parser does set it to the
current date and does emit exactly one warning naming the persona, but with
the name also absent the warning names the persona None (the str() of the
stored None value: the unknown default of the source is dead because the
name key is always present in the config), not the literal unknown claimed
by the specification.  Evaluated at the failing input. -/
theorem version_default_warning_names_none :
    parse_persona_markdown [(("role"), PyVal.str "R"), (("goal"), PyVal.str "G")]
        "# Backstory\nSenior engineer." "2026-10-12" =
      Except.ok ({ name := PyVal.none, role := PyVal.str "R", goal := PyVal.str "G",
                   backstory := "Senior engineer.", constraints := PyVal.list [],
                   llm_config := PyVal.none, description := PyVal.none,
                   version := PyVal.str "2026-10-12", metadata := PyVal.dict [] },
        ["Version key missing for persona " ++ quoted ("None")
          ++ ". Defaulting to today" ++ sq ++ "s date: 2026-10-12"]) := rfl

/-- Counterexample for C9: the deferred builder does not leave its prior
working state unchanged when build fails.  Queueing a role assignment on a
fresh builder and building fails validation (no goal), yet the role field
has changed from None to the queued value. -/
theorem async_build_failure_keeps_mutation :
    (asyncBuild [AsyncStep.role ("R")] { name := "x" }).1.role = PyVal.str ("R")
    ∧ ({ name := "x" } : AsyncPersonaBuilder).role = PyVal.none
    ∧ (asyncBuild [AsyncStep.role ("R")] { name := "x" }).2 =
        Except.error (validationFailureMsg ("x") ["Goal is required for persona " ++ quoted ("x")]) :=
  ⟨rfl, rfl, rfl⟩

/-- C9 as amended: when the immediate-mode build fails, no agent is produced
and the builder state is unchanged (the source assigns no attribute of self
in validate or build); the deferred-mode build instead leaves as its final
working state exactly the state produced by the executed queue, whether or
not validation subsequently fails, so executed-step effects persist after a
failed build. -/
theorem build_failure_state_behaviour :
    (∀ (b : PersonaBuilder) (e : String),
        (PersonaBuilder.build_st b).2 = Except.error e → (PersonaBuilder.build_st b).1 = b)
    ∧ (∀ (steps : List AsyncStep) (s : AsyncPersonaBuilder),
        (asyncBuild steps s).1 = (execSteps steps s).1) := by
  constructor
  · intro b e _
    unfold PersonaBuilder.build_st
    cases PersonaBuilder.validate b <;> rfl
  · intro steps s
    unfold asyncBuild
    rcases hE : execSteps steps s with ⟨s1, err⟩
    cases err with
    | none => cases hv : AsyncPersonaBuilder.validate s1 <;> simp [hv]
    | some e => rfl

/-- Witness for the amended C9 at a concrete failing immediate-mode build:
a builder with a goal but no role fails validation and is returned
unchanged. -/
theorem build_failure_state_behaviour_witness :
    ∃ e, (PersonaBuilder.build_st { PersonaBuilder.init with goal := PyVal.str ("G") }).2
          = Except.error e
      ∧ (PersonaBuilder.build_st { PersonaBuilder.init with goal := PyVal.str ("G") }).1
          = { PersonaBuilder.init with goal := PyVal.str ("G") } :=
  ⟨_, rfl, build_failure_state_behaviour.1 { PersonaBuilder.init with goal := PyVal.str ("G") } _ rfl⟩

/-- C10: adding a constraint already in the list is a no-op on builders and
agents alike, while the bulk-set operation always replaces the whole list
with its argument verbatim, duplicates included. -/
theorem constraint_duplicate_no_op :
    (∀ (b : PersonaBuilder) (L : List PyVal) (c : String),
        b.constraints = PyVal.list L → PyVal.str c ∈ L → PersonaBuilder.add_constraint b c = b)
    ∧ (∀ (a : PersonaAgent) (L : List PyVal) (c : String),
        a.constraints = PyVal.list L → PyVal.str c ∈ L → PersonaAgent.add_constraint a c = a)
    ∧ (∀ (b : PersonaBuilder) (cs : List String),
        (PersonaBuilder.set_constraints b cs).constraints = PyVal.list (cs.map PyVal.str)) := by
  refine ⟨?_, ?_, ?_⟩
  · intro b L c hbc hmem
    have hcon : pyContainsStr b.constraints c = true := by
      rw [hbc]
      simp only [pyContainsStr, List.any_eq_true]
      exact ⟨PyVal.str c, hmem, by simp⟩
    simp [PersonaBuilder.add_constraint, hcon]
  · intro a L c hac hmem
    have hcon : pyContainsStr a.constraints c = true := by
      rw [hac]
      simp only [pyContainsStr, List.any_eq_true]
      exact ⟨PyVal.str c, hmem, by simp⟩
    simp [PersonaAgent.add_constraint, hcon]
  · intro b cs
    rfl

/-- Witness for C10 at a concrete duplicate: adding dup to a builder and an
agent already holding it changes nothing, and bulk-set keeps duplicates. -/
theorem constraint_duplicate_no_op_witness :
    PersonaBuilder.add_constraint
        { PersonaBuilder.init with constraints := PyVal.list [PyVal.str ("dup")] } ("dup")
      = { PersonaBuilder.init with constraints := PyVal.list [PyVal.str ("dup")] }
    ∧ PersonaAgent.add_constraint
        (mkPersonaAgent (PyVal.str ("n")) (PyVal.str ("R")) (PyVal.str ("G")) (PyVal.str "")
          (PyVal.list [PyVal.str ("dup")]) PyVal.none PyVal.none [] PyVal.none) ("dup")
      = mkPersonaAgent (PyVal.str ("n")) (PyVal.str ("R")) (PyVal.str ("G")) (PyVal.str "")
          (PyVal.list [PyVal.str ("dup")]) PyVal.none PyVal.none [] PyVal.none
    ∧ (PersonaBuilder.set_constraints PersonaBuilder.init ["a", "a"]).constraints
      = PyVal.list [PyVal.str ("a"), PyVal.str ("a")] := by
  refine ⟨?_, ?_, ?_⟩
  · exact constraint_duplicate_no_op.1 _ [PyVal.str ("dup")] ("dup") rfl (by simp)
  · exact constraint_duplicate_no_op.2.1 _ [PyVal.str ("dup")] ("dup") rfl (by simp)
  · exact constraint_duplicate_no_op.2.2 PersonaBuilder.init ["a", "a"]

theorem builderWith_name (n r g : String) (lc : PyVal) :
    (builderWith n r g lc).name = PyVal.str n := rfl

/-- The error list of the synchronous validator equals the concatenation of
its five rules taken independently, in the fixed order name, role, goal,
constraints, llm_config. -/
theorem validationErrors_decomp (b : PersonaBuilder) :
    validationErrors b = nameRuleErrors b ++ roleRuleErrors b ++ goalRuleErrors b
      ++ constraintsRuleErrors b ++ llmConfigRuleErrors b := by
  simp only [validationErrors, nameRuleErrors, roleRuleErrors, goalRuleErrors,
    constraintsRuleErrors, llmConfigRuleErrors]
  split_ifs <;> simp

/-- The error list of the asynchronous validator equals the concatenation of
its four rules taken independently: name, role, goal, and the single
must-contain llm_config rule.  It has no constraints rule and no
must-be-a-dictionary rule. -/
theorem asyncValidationErrors_decomp (s : AsyncPersonaBuilder) :
    asyncValidationErrors s = asyncNameRuleErrors s ++ asyncRoleRuleErrors s
      ++ asyncGoalRuleErrors s ++ asyncLlmRuleErrors s := by
  simp only [asyncValidationErrors, asyncNameRuleErrors, asyncRoleRuleErrors,
    asyncGoalRuleErrors, asyncLlmRuleErrors]
  split_ifs <;> simp

/-- Counterexample for C2: the asynchronous validator does not evaluate the
rule set claimed (name, role, goal, constraints-is-a-list, llm_config
well-formed).  At a state whose llm_config is True (present, not the
explicit-disable sentinel False, and not a mapping, as the last three
conjuncts record) and whose role is missing, the single raised error
reports only the role violation and carries no llm_config line at all. -/
theorem async_validate_omits_claimed_rules :
    AsyncPersonaBuilder.validate
        { name := "x", role := PyVal.none, goal := PyVal.str ("G"),
          backstory := PyVal.str "", constraints := PyVal.list [],
          llm_config := PyVal.bool true, description := PyVal.none }
      = Except.error (validationFailureMsg ("x") ["Role is required for persona " ++ quoted ("x")])
    ∧ isNone (PyVal.bool true) = false
    ∧ isFalseV (PyVal.bool true) = false
    ∧ isDict (PyVal.bool true) = false := ⟨rfl, rfl, rfl, rfl⟩

/-- C2 as amended: whenever validation fails, exactly one error is raised,
whose message is the fixed header naming the persona followed by one
indented line per violated rule; the rules are evaluated independently and
all collected, none suppressed by an earlier one.  For the synchronous
builder the rules are the five claimed ones in the order name, role, goal,
constraints-is-a-list, llm_config well-formed; the asynchronous builder
evaluates only name, role, goal and the must-contain check on mapping
llm_configs (it has no constraints rule and no llm_config
must-be-a-mapping rule). -/
theorem validate_aggregates_all_rules :
    (∀ (b : PersonaBuilder) (e : String), PersonaBuilder.validate b = Except.error e →
      validationErrors b = nameRuleErrors b ++ roleRuleErrors b ++ goalRuleErrors b
          ++ constraintsRuleErrors b ++ llmConfigRuleErrors b
        ∧ validationErrors b ≠ []
        ∧ e = validationFailureMsg (pyStr b.name) (validationErrors b))
    ∧ (∀ (s : AsyncPersonaBuilder) (e : String), AsyncPersonaBuilder.validate s = Except.error e →
      asyncValidationErrors s = asyncNameRuleErrors s ++ asyncRoleRuleErrors s
          ++ asyncGoalRuleErrors s ++ asyncLlmRuleErrors s
        ∧ asyncValidationErrors s ≠ []
        ∧ e = validationFailureMsg s.name (asyncValidationErrors s)) := by
  constructor
  · intro b e h
    refine ⟨validationErrors_decomp b, ?_, ?_⟩
    · intro hnil
      simp [PersonaBuilder.validate, hnil] at h
    · by_cases hE : (validationErrors b).isEmpty
      · simp [PersonaBuilder.validate, hE] at h
      · have hmsg : PersonaBuilder.validate b =
            Except.error (validationFailureMsg (pyStr b.name) (validationErrors b)) := by
          simp [PersonaBuilder.validate, validationFailureMsg, hE]
        rw [hmsg] at h
        injection h with h2
        exact h2.symm
  · intro s e h
    refine ⟨asyncValidationErrors_decomp s, ?_, ?_⟩
    · intro hnil
      simp [AsyncPersonaBuilder.validate, hnil] at h
    · by_cases hE : (asyncValidationErrors s).isEmpty
      · simp [AsyncPersonaBuilder.validate, hE] at h
      · have hmsg : AsyncPersonaBuilder.validate s =
            Except.error (validationFailureMsg s.name (asyncValidationErrors s)) := by
          simp [AsyncPersonaBuilder.validate, validationFailureMsg, hE]
        rw [hmsg] at h
        injection h with h2
        exact h2.symm

/-- Witness for the amended C2: a builder violating four rules at once
(name, role, constraints shape, llm_config content) raises one error whose
message carries all four lines in order. -/
theorem validate_aggregates_all_rules_witness :
    ∃ e, PersonaBuilder.validate cexB = Except.error e
      ∧ (validationErrors cexB = nameRuleErrors cexB ++ roleRuleErrors cexB ++ goalRuleErrors cexB
            ++ constraintsRuleErrors cexB ++ llmConfigRuleErrors cexB
          ∧ validationErrors cexB ≠ []
          ∧ e = validationFailureMsg (pyStr cexB.name) (validationErrors cexB)) :=
  ⟨_, rfl, validate_aggregates_all_rules.1 cexB _ rfl⟩

/-- C5: validation of the llm_config field: the explicit-disable sentinel
False passes; a present value that is neither None nor False nor a mapping
is rejected as not a mapping; a mapping containing neither model nor
config_list fails with the must-contain message; a mapping containing
either key passes.  Stated on builders whose name, role and goal are valid
so that the llm_config rule alone decides the outcome. -/
theorem llm_config_validation_rules (name role goal : String)
    (hn : name.isEmpty = false) (hr : role.isEmpty = false) (hg : goal.isEmpty = false) :
    PersonaBuilder.validate (builderWith name role goal (PyVal.bool false)) = Except.ok ()
    ∧ (∀ lc : PyVal, isNone lc = false → isFalseV lc = false → isDict lc = false →
        PersonaBuilder.validate (builderWith name role goal lc) =
          Except.error (validationFailureMsg name
            ["LLM config must be a dictionary for persona " ++ quoted name
              ++ ", got " ++ pyTypeName lc]))
    ∧ (∀ kvs, containsKey kvs ("config_list") = false → containsKey kvs ("model") = false →
        PersonaBuilder.validate (builderWith name role goal (PyVal.dict kvs)) =
          Except.error (validationFailureMsg name
            ["LLM config must contain " ++ quoted ("config_list") ++ " or "
              ++ quoted ("model") ++ " for persona " ++ quoted name]))
    ∧ (∀ kvs, (containsKey kvs ("config_list") || containsKey kvs ("model")) = true →
        PersonaBuilder.validate (builderWith name role goal (PyVal.dict kvs)) = Except.ok ()) := by
  have hbase : ∀ lc : PyVal,
      nameRuleErrors (builderWith name role goal lc) = []
      ∧ roleRuleErrors (builderWith name role goal lc) = []
      ∧ goalRuleErrors (builderWith name role goal lc) = []
      ∧ constraintsRuleErrors (builderWith name role goal lc) = [] := by
    intro lc
    refine ⟨?_, ?_, ?_, ?_⟩ <;>
      simp [nameRuleErrors, roleRuleErrors, goalRuleErrors, constraintsRuleErrors,
        builderWith, PersonaBuilder.init, truthy, isList, hn, hr, hg]
  refine ⟨?_, ?_, ?_, ?_⟩
  · have hllm : llmConfigRuleErrors (builderWith name role goal (PyVal.bool false)) = [] := by
      simp [llmConfigRuleErrors, builderWith, isFalseV]
    have hnil : validationErrors (builderWith name role goal (PyVal.bool false)) = [] := by
      rw [validationErrors_decomp]
      obtain ⟨h1, h2, h3, h4⟩ := hbase (PyVal.bool false)
      simp [h1, h2, h3, h4, hllm]
    simp [PersonaBuilder.validate, hnil]
  · intro lc h1 h2 h3
    have hllm : llmConfigRuleErrors (builderWith name role goal lc) =
        ["LLM config must be a dictionary for persona " ++ quoted name
          ++ ", got " ++ pyTypeName lc] := by
      simp [llmConfigRuleErrors, builderWith, pyStr_str_eq, h1, h2, h3]
    have herr : validationErrors (builderWith name role goal lc) =
        ["LLM config must be a dictionary for persona " ++ quoted name
          ++ ", got " ++ pyTypeName lc] := by
      rw [validationErrors_decomp]
      obtain ⟨k1, k2, k3, k4⟩ := hbase lc
      simp [k1, k2, k3, k4, hllm]
    simp [PersonaBuilder.validate, herr, validationFailureMsg, joinSep, pyStr_str_eq,
      builderWith_name]
  · intro kvs h1 h2
    have hllm : llmConfigRuleErrors (builderWith name role goal (PyVal.dict kvs)) =
        ["LLM config must contain " ++ quoted ("config_list") ++ " or "
          ++ quoted ("model") ++ " for persona " ++ quoted name] := by
      simp [llmConfigRuleErrors, builderWith, isNone, isFalseV, isDict, asDict, pyStr_str_eq, h1, h2]
    have herr : validationErrors (builderWith name role goal (PyVal.dict kvs)) =
        ["LLM config must contain " ++ quoted ("config_list") ++ " or "
          ++ quoted ("model") ++ " for persona " ++ quoted name] := by
      rw [validationErrors_decomp]
      obtain ⟨k1, k2, k3, k4⟩ := hbase (PyVal.dict kvs)
      simp [k1, k2, k3, k4, hllm]
    simp [PersonaBuilder.validate, herr, validationFailureMsg, joinSep, pyStr_str_eq,
      builderWith_name]
  · intro kvs h
    have hllm : llmConfigRuleErrors (builderWith name role goal (PyVal.dict kvs)) = [] := by
      cases hca : containsKey kvs ("config_list") with
      | true => simp [llmConfigRuleErrors, builderWith, isNone, isFalseV, isDict, asDict, hca]
      | false =>
        cases hcm : containsKey kvs ("model") with
        | true => simp [llmConfigRuleErrors, builderWith, isNone, isFalseV, isDict, asDict, hca, hcm]
        | false => simp [hca, hcm] at h
    have hnil : validationErrors (builderWith name role goal (PyVal.dict kvs)) = [] := by
      rw [validationErrors_decomp]
      obtain ⟨k1, k2, k3, k4⟩ := hbase (PyVal.dict kvs)
      simp [k1, k2, k3, k4, hllm]
    simp [PersonaBuilder.validate, hnil]

/-- Witness for C5 at the concrete inputs of the specification: llm_config
False passes, a string is rejected as not a mapping, a mapping holding only
a temperature fails with the must-contain message, and a mapping holding a
model passes. -/
theorem llm_config_validation_rules_witness :
    PersonaBuilder.validate (builderWith "x" "R" "G" (PyVal.bool false)) = Except.ok ()
    ∧ PersonaBuilder.validate (builderWith "x" "R" "G" (PyVal.str ("nope"))) =
        Except.error (validationFailureMsg "x" ["LLM config must be a dictionary for persona "
          ++ quoted "x" ++ ", got " ++ pyTypeName (PyVal.str ("nope"))])
    ∧ PersonaBuilder.validate
          (builderWith "x" "R" "G" (PyVal.dict [(("temperature"), PyVal.int 1)])) =
        Except.error (validationFailureMsg "x" ["LLM config must contain " ++ quoted ("config_list")
          ++ " or " ++ quoted ("model") ++ " for persona " ++ quoted "x"])
    ∧ PersonaBuilder.validate (builderWith "x" "R" "G" (PyVal.dict [(("model"), PyVal.str ("x"))]))
        = Except.ok () := by
  refine ⟨?_, ?_, ?_, ?_⟩
  · exact (llm_config_validation_rules "x" "R" "G" rfl rfl rfl).1
  · exact (llm_config_validation_rules "x" "R" "G" rfl rfl rfl).2.1 _ rfl rfl rfl
  · exact (llm_config_validation_rules "x" "R" "G" rfl rfl rfl).2.2.1 _ rfl rfl
  · exact (llm_config_validation_rules "x" "R" "G" rfl rfl rfl).2.2.2 _ rfl

theorem joinSep_single (sep x : String) : joinSep sep [x] = x := rfl

theorem joinSep_cons_cons (sep x y : String) (l : List String) :
    joinSep sep (x :: y :: l) = x ++ sep ++ joinSep sep (y :: l) := rfl

theorem concatList_cons (x : String) (l : List String) :
    concatList (x :: l) = x ++ concatList l := rfl

/-- Joining a heading followed by bullet lines equals the heading followed
by one newline-prefixed bullet per entry. -/
theorem joinSep_map_bullets (pre : String) (cs : List String) :
    joinSep "\n" (pre :: cs.map (fun c => "- " ++ c)) =
      pre ++ concatList (cs.map (fun c => "\n- " ++ c)) := by
  induction cs generalizing pre with
  | nil => simp [joinSep, concatList, String.append_empty]
  | cons c rest ih =>
    rw [List.map_cons, List.map_cons, joinSep_cons_cons, ih ("- " ++ c), concatList_cons,
      show ("\n- " : String) = "\n" ++ "- " from rfl]
    simp only [String.append_assoc]

/-- C3: the system-message composer is a pure function of role, goal,
backstory and constraints whose output starts with the role heading, then
the goal section; a background section appears iff the backstory is
non-empty; a constraints heading with exactly one bullet per constraint in
input order appears iff the constraint list is non-empty; the sections are
blank-line separated in the fixed order role, goal, background,
constraints, and with empty backstory and constraints neither optional
section appears. -/
theorem build_system_message_spec (role goal backstory : String) (constraints : List String) :
    build_system_message (PyVal.str role) (PyVal.str goal) (PyVal.str backstory)
        (PyVal.list (constraints.map PyVal.str)) =
      "# Role: " ++ role ++ "\n\n## Goal\n" ++ goal
        ++ (if backstory.isEmpty then "" else "\n\n## Background\n" ++ backstory)
        ++ (if constraints.isEmpty then "" else
              "\n\n## Constraints" ++ concatList (constraints.map (fun c => "\n- " ++ c))) := by
  have hmap : (constraints.map PyVal.str).map (fun c => "- " ++ pyStr c)
      = constraints.map (fun c => "- " ++ c) := by
    rw [List.map_map]
    rfl
  have hmapE : (constraints.map PyVal.str).isEmpty = constraints.isEmpty := by
    cases constraints <;> rfl
  cases hb : backstory.isEmpty <;> cases hc : constraints.isEmpty <;>
    simp only [build_system_message, truthy_str_eq, truthy_list_eq, pyStr_str_eq,
      pyElems_list_eq, hmap, hmapE, hb, hc, Bool.not_true, Bool.not_false, if_true, if_false,
      Bool.false_eq_true, Bool.true_eq_false, ite_true, ite_false, List.cons_append,
      List.nil_append, List.append_assoc]
  · -- backstory present, constraints present
    rw [joinSep_cons_cons, joinSep_cons_cons, joinSep_cons_cons, joinSep_map_bullets,
      show ("\n\n## Goal\n" : String) = "\n" ++ "\n## Goal\n" from rfl,
      show ("\n\n## Background\n" : String) = "\n" ++ "\n## Background\n" from rfl,
      show ("\n\n## Constraints" : String) = "\n" ++ "\n## Constraints" from rfl]
    simp only [String.append_assoc]
  · -- backstory present, constraints empty
    rw [joinSep_cons_cons, joinSep_cons_cons, joinSep_single,
      show ("\n\n## Goal\n" : String) = "\n" ++ "\n## Goal\n" from rfl,
      show ("\n\n## Background\n" : String) = "\n" ++ "\n## Background\n" from rfl]
    simp only [String.append_assoc, String.append_empty]
  · -- backstory empty, constraints present
    rw [joinSep_cons_cons, joinSep_cons_cons, joinSep_map_bullets,
      show ("\n\n## Goal\n" : String) = "\n" ++ "\n## Goal\n" from rfl,
      show ("\n\n## Constraints" : String) = "\n" ++ "\n## Constraints" from rfl]
    simp only [String.append_assoc, String.append_empty]
  · -- backstory empty, constraints empty
    rw [joinSep_cons_cons, joinSep_single,
      show ("\n\n## Goal\n" : String) = "\n" ++ "\n## Goal\n" from rfl]
    simp only [String.append_assoc, String.append_empty]

theorem initialConfig_name (metadata : List (String × PyVal)) (content : String) :
    (initialConfig metadata content).name = dictGetD metadata ("name") PyVal.none := rfl

theorem initialConfig_role (metadata : List (String × PyVal)) (content : String) :
    (initialConfig metadata content).role = dictGetD metadata ("role") PyVal.none := rfl

theorem initialConfig_goal (metadata : List (String × PyVal)) (content : String) :
    (initialConfig metadata content).goal = dictGetD metadata ("goal") PyVal.none := rfl

theorem initialConfig_constraints (metadata : List (String × PyVal)) (content : String) :
    (initialConfig metadata content).constraints = PyVal.list [] := rfl

/-- The version-default pass changes only the version field (and emits the
warning); every other configuration field is preserved. -/
theorem handle_version_preserves (c : PersonaConfig) (t : String) :
    (handle_version c t).1.name = c.name ∧ (handle_version c t).1.role = c.role
    ∧ (handle_version c t).1.goal = c.goal ∧ (handle_version c t).1.backstory = c.backstory
    ∧ (handle_version c t).1.constraints = c.constraints := by
  unfold handle_version
  split_ifs <;> exact ⟨rfl, rfl, rfl, rfl, rfl⟩

/-- On a front matter whose role value, when present, is a string, the
truthiness of the stored role value is the negation of the claim-side
missing-or-empty predicate. -/
theorem truthy_role_not_missing (metadata : List (String × PyVal))
    (hr : ∀ v, dictGet metadata ("role") = some v → ∃ s, v = PyVal.str s) :
    truthy (dictGetD metadata ("role") PyVal.none) = !(mdRoleMissing metadata) := by
  cases hv : dictGet metadata ("role") with
  | none => simp [dictGetD, hv, mdRoleMissing, truthy_none_eq]
  | some v =>
    obtain ⟨s, rfl⟩ := hr v hv
    simp [dictGetD, hv, mdRoleMissing, truthy_str_eq]

/-- The goal-value analogue of truthy_role_not_missing. -/
theorem truthy_goal_not_missing (metadata : List (String × PyVal))
    (hg : ∀ v, dictGet metadata ("goal") = some v → ∃ s, v = PyVal.str s) :
    truthy (dictGetD metadata ("goal") PyVal.none) = !(mdGoalMissing metadata) := by
  cases hv : dictGet metadata ("goal") with
  | none => simp [dictGetD, hv, mdGoalMissing, truthy_none_eq]
  | some v =>
    obtain ⟨s, rfl⟩ := hg v hv
    simp [dictGetD, hv, mdGoalMissing, truthy_str_eq]

/-- The claim-side error list is empty exactly when none of the three rules
is violated. -/
theorem mdErrors_nil_iff (metadata : List (String × PyVal)) (content : String) :
    mdErrors metadata content = [] ↔
      (mdRoleMissing metadata = false ∧ mdGoalMissing metadata = false
        ∧ mdBackstoryMissing metadata content = false) := by
  unfold mdErrors
  split_ifs <;> simp_all

/-- C7: for every front matter that parses and whose constraints value (if
any) is a list, and whose role and goal values (if any) are strings, the
Markdown persona parser fails exactly when role is missing or empty, goal
is missing or empty, or the backstory section is empty after trimming; the
raised error is the aggregated message listing every violated rule with its
exact text, prefixed by the persona name; and a missing constraints key is
not an error: the parsed configuration then carries the empty constraint
list. -/
theorem markdown_parse_required_fields (metadata : List (String × PyVal)) (content today : String)
    (hc : ∀ v, dictGet metadata ("constraints") = some v → isList v = true)
    (hr : ∀ v, dictGet metadata ("role") = some v → ∃ s, v = PyVal.str s)
    (hg : ∀ v, dictGet metadata ("goal") = some v → ∃ s, v = PyVal.str s) :
    (∀ cfg ws, parse_persona_markdown metadata content today = Except.ok (cfg, ws) →
        mdRoleMissing metadata = false ∧ mdGoalMissing metadata = false
        ∧ mdBackstoryMissing metadata content = false
        ∧ (dictGet metadata ("constraints") = Option.none → cfg.constraints = PyVal.list []))
    ∧ (∀ e, parse_persona_markdown metadata content today = Except.error e →
        (mdRoleMissing metadata || mdGoalMissing metadata
          || mdBackstoryMissing metadata content) = true
        ∧ e = mdValidationMsg metadata content)
    ∧ ((mdRoleMissing metadata || mdGoalMissing metadata
          || mdBackstoryMissing metadata content) = true →
        ∃ e, parse_persona_markdown metadata content today = Except.error e) := by
  obtain ⟨cfg1, hA, hAname, hArole, hAgoal, hAback, hAcon⟩ :
      ∃ cfg1, apply_constraints metadata (initialConfig metadata content) = Except.ok cfg1
        ∧ cfg1.name = (initialConfig metadata content).name
        ∧ cfg1.role = (initialConfig metadata content).role
        ∧ cfg1.goal = (initialConfig metadata content).goal
        ∧ cfg1.backstory = (initialConfig metadata content).backstory
        ∧ (dictGet metadata ("constraints") = Option.none →
            cfg1.constraints = (initialConfig metadata content).constraints) := by
    cases hcv : dictGet metadata ("constraints") with
    | none =>
      exact ⟨initialConfig metadata content, by simp [apply_constraints, hcv],
        rfl, rfl, rfl, rfl, fun _ => rfl⟩
    | some v =>
      have hl := hc v hcv
      cases v with
      | list xs =>
        exact ⟨{ initialConfig metadata content with constraints := PyVal.list xs },
          by simp [apply_constraints, hcv], rfl, rfl, rfl, rfl,
          fun hnone => Option.noConfusion hnone⟩
      | none => simp [isList] at hl
      | bool b => simp [isList] at hl
      | int n => simp [isList] at hl
      | str s => simp [isList] at hl
      | dict kvs => simp [isList] at hl
  obtain ⟨hVname, hVrole, hVgoal, hVback, hVcon⟩ := handle_version_preserves cfg1 today
  have hrole2 : truthy (handle_version cfg1 today).1.role = !(mdRoleMissing metadata) := by
    rw [hVrole, hArole, initialConfig_role, truthy_role_not_missing metadata hr]
  have hgoal2 : truthy (handle_version cfg1 today).1.goal = !(mdGoalMissing metadata) := by
    rw [hVgoal, hAgoal, initialConfig_goal, truthy_goal_not_missing metadata hg]
  have hback2 : (strip (handle_version cfg1 today).1.backstory).isEmpty
      = mdBackstoryMissing metadata content := by
    rw [hVback, hAback]
    rfl
  have hname2 : (handle_version cfg1 today).1.name = dictGetD metadata ("name") PyVal.none := by
    rw [hVname, hAname, initialConfig_name]
  have hreq : requiredFieldErrors (handle_version cfg1 today).1 = mdErrors metadata content := by
    simp only [requiredFieldErrors, mdErrors, hrole2, hgoal2, hback2, Bool.not_not]
    split_ifs <;> simp
  have hparse : parse_persona_markdown metadata content today =
      (match validate_required_fields (handle_version cfg1 today).1 with
       | Except.error e => Except.error e
       | Except.ok _ =>
          Except.ok ((handle_version cfg1 today).1, (handle_version cfg1 today).2)) := by
    simp only [parse_persona_markdown, hA]
  by_cases hnil : mdErrors metadata content = []
  · have hok : validate_required_fields (handle_version cfg1 today).1 = Except.ok () := by
      simp [validate_required_fields, hreq, hnil]
    obtain ⟨hrf, hgf, hbf⟩ := (mdErrors_nil_iff metadata content).mp hnil
    refine ⟨?_, ?_, ?_⟩
    · intro cfg ws hokk
      rw [hparse, hok] at hokk
      injection hokk with h2
      have h3 : (handle_version cfg1 today).1 = cfg := congrArg Prod.fst h2
      refine ⟨hrf, hgf, hbf, fun hnone => ?_⟩
      rw [← h3, hVcon, hAcon hnone, initialConfig_constraints]
    · intro e herr
      rw [hparse, hok] at herr
      cases herr
    · intro hsome
      rw [hrf, hgf, hbf] at hsome
      cases hsome
  · have herrs : validate_required_fields (handle_version cfg1 today).1 =
        Except.error (mdValidationMsg metadata content) := by
      have hne : (mdErrors metadata content).isEmpty = false := by
        cases hE : mdErrors metadata content with
        | nil => exact absurd hE hnil
        | cons x xs => rfl
      simp only [validate_required_fields, hreq, hname2, mdValidationMsg]
      simp [hne]
    refine ⟨?_, ?_, ?_⟩
    · intro cfg ws hokk
      rw [hparse, herrs] at hokk
      cases hokk
    · intro e herr
      rw [hparse, herrs] at herr
      injection herr with h2
      constructor
      · cases hro : mdRoleMissing metadata <;> cases hgo : mdGoalMissing metadata <;>
          cases hba : mdBackstoryMissing metadata content <;> simp_all [mdErrors_nil_iff]
      · exact h2.symm
    · intro _
      exact ⟨mdValidationMsg metadata content, by rw [hparse, herrs]⟩

/-- Witness for C7: a front matter with an empty goal, no role and no
constraints, over a body without a backstory section, fails with the three
exact messages aggregated under the persona name; the hypotheses hold since
the only value present is a string. -/
theorem markdown_parse_required_fields_witness :
    ∃ e, parse_persona_markdown [(("goal"), PyVal.str "")] "no sections here" "2026-10-12"
          = Except.error e
      ∧ e = mdValidationMsg [(("goal"), PyVal.str "")] "no sections here" := by
  obtain ⟨e, he⟩ :=
    (markdown_parse_required_fields [(("goal"), PyVal.str "")] "no sections here" "2026-10-12"
      (fun v h => Option.noConfusion h)
      (fun v h => Option.noConfusion h)
      (fun v h => ⟨"", (Option.some.inj h).symm⟩)).2.2 (by rfl)
  refine ⟨e, he, ?_⟩
  exact ((markdown_parse_required_fields [(("goal"), PyVal.str "")] "no sections here" "2026-10-12"
    (fun v h => Option.noConfusion h)
    (fun v h => Option.noConfusion h)
    (fun v h => ⟨"", (Option.some.inj h).symm⟩)).2.1 e he).2

theorem dictUpdate_nil_left (m : List (String × PyVal)) : dictUpdate [] m = m := by
  simp [dictUpdate, containsKey, dictGet]

theorem nameRuleErrors_nil_iff (b : PersonaBuilder) :
    nameRuleErrors b = [] ↔ truthy b.name = true := by
  cases h : truthy b.name <;> simp [nameRuleErrors, h]

theorem roleRuleErrors_nil_iff (b : PersonaBuilder) :
    roleRuleErrors b = [] ↔ truthy b.role = true := by
  cases h : truthy b.role <;> simp [roleRuleErrors, h]

theorem goalRuleErrors_nil_iff (b : PersonaBuilder) :
    goalRuleErrors b = [] ↔ truthy b.goal = true := by
  cases h : truthy b.goal <;> simp [goalRuleErrors, h]

theorem constraintsRuleErrors_nil_iff (b : PersonaBuilder) :
    constraintsRuleErrors b = [] ↔ (truthy b.constraints && !(isList b.constraints)) = false := by
  cases h : truthy b.constraints && !(isList b.constraints) <;> simp [constraintsRuleErrors, h]

/-- A builder all of whose rules hold validates to the empty error list. -/
theorem validationErrors_nil_intro (b : PersonaBuilder)
    (h1 : truthy b.name = true) (h2 : truthy b.role = true) (h3 : truthy b.goal = true)
    (h4 : (truthy b.constraints && !(isList b.constraints)) = false)
    (h5 : llmConfigRuleErrors b = []) :
    validationErrors b = [] := by
  rw [validationErrors_decomp]
  simp [nameRuleErrors, roleRuleErrors, goalRuleErrors, constraintsRuleErrors, h1, h2, h3, h4, h5]

/-- A successful build passes validation and returns exactly the agent
constructed from the builder fields. -/
theorem build_ok_elim (b : PersonaBuilder) (a : PersonaAgent)
    (h : PersonaBuilder.build b = Except.ok a) :
    validationErrors b = []
    ∧ a = mkPersonaAgent b.name b.role b.goal b.backstory b.constraints b.description b.version
        b.metadata b.llm_config := by
  by_cases hE : (validationErrors b).isEmpty
  · have hnil : validationErrors b = [] := by
      cases hL : validationErrors b with
      | nil => rfl
      | cons x xs => rw [hL] at hE; simp at hE
    have hv : PersonaBuilder.validate b = Except.ok () := by
      simp [PersonaBuilder.validate, hE]
    unfold PersonaBuilder.build at h
    rw [hv] at h
    injection h with h2
    exact ⟨hnil, h2.symm⟩
  · have hv : PersonaBuilder.validate b =
        Except.error (validationFailureMsg (pyStr b.name) (validationErrors b)) := by
      simp [PersonaBuilder.validate, validationFailureMsg, hE]
    unfold PersonaBuilder.build at h
    rw [hv] at h
    cases h

/-- A builder with an empty error list builds the agent of its fields. -/
theorem build_of_valid (b : PersonaBuilder) (h : validationErrors b = []) :
    PersonaBuilder.build b = Except.ok (mkPersonaAgent b.name b.role b.goal b.backstory
      b.constraints b.description b.version b.metadata b.llm_config) := by
  have hv : PersonaBuilder.validate b = Except.ok () := by
    simp [PersonaBuilder.validate, h]
  unfold PersonaBuilder.build
  rw [hv]

/-- C6: round trip: any successfully built agent, exported with to_dict,
loaded into a fresh builder with from_dict, with llm_config explicitly
re-applied, builds again into an agent with the same role, goal, backstory,
constraints, version and metadata. -/
theorem to_dict_roundtrip (b : PersonaBuilder) (a : PersonaAgent)
    (h : PersonaBuilder.build b = Except.ok a) :
    ∃ b2, PersonaBuilder.from_dict PersonaBuilder.init (PyVal.dict (to_dict a)) = Except.ok b2
      ∧ ∃ a2, PersonaBuilder.build
            (PersonaBuilder.set_llm_config b2 (dictGetD (to_dict a) ("llm_config") PyVal.none))
          = Except.ok a2
        ∧ a2.role = a.role ∧ a2.goal = a.goal ∧ a2.backstory = a.backstory
        ∧ a2.constraints = a.constraints ∧ a2.version = a.version ∧ a2.metadata = a.metadata := by
  obtain ⟨hnil, ha⟩ := build_ok_elim b a h
  subst ha
  rw [validationErrors_decomp] at hnil
  simp only [List.append_eq_nil] at hnil
  obtain ⟨⟨⟨⟨hn1, hn2⟩, hn3⟩, hn4⟩, hn5⟩ := hnil
  have htn : truthy b.name = true := (nameRuleErrors_nil_iff b).mp hn1
  have htr : truthy b.role = true := (roleRuleErrors_nil_iff b).mp hn2
  have htg : truthy b.goal = true := (goalRuleErrors_nil_iff b).mp hn3
  have htc : (truthy b.constraints && !(isList b.constraints)) = false :=
    (constraintsRuleErrors_nil_iff b).mp hn4
  refine ⟨{ name := b.name, role := b.role, goal := b.goal, backstory := b.backstory,
            constraints := b.constraints, llm_config := b.llm_config,
            description := PyVal.none, version := b.version, metadata := b.metadata },
    ?_,
    mkPersonaAgent b.name b.role b.goal b.backstory b.constraints PyVal.none b.version
      b.metadata b.llm_config,
    ?_, rfl, rfl, rfl, rfl, rfl, rfl⟩
  · have hfd0 : PersonaBuilder.from_dict PersonaBuilder.init
        (PyVal.dict (to_dict (mkPersonaAgent b.name b.role b.goal b.backstory b.constraints
          b.description b.version b.metadata b.llm_config))) =
        (if (truthy b.constraints && !(isList b.constraints)) = true
         then Except.error ("Constraints must be a list for persona " ++ quoted (pyStr b.name)
           ++ ", got " ++ pyTypeName b.constraints)
         else Except.ok { name := b.name, role := b.role, goal := b.goal,
                          backstory := b.backstory, constraints := b.constraints,
                          llm_config := b.llm_config, description := PyVal.none,
                          version := b.version,
                          metadata := dictUpdate [] b.metadata }) := rfl
    rw [hfd0, htc]
    simp [dictUpdate_nil_left]
  · exact build_of_valid _ (validationErrors_nil_intro _ htn htr htg htc hn5)

/-- Witness for C6 at a concrete builder holding every field: the built
agent round-trips through to_dict, from_dict and llm_config re-application
into an agent with identical persona data. -/
theorem to_dict_roundtrip_witness :
    ∃ a, PersonaBuilder.build
          { PersonaBuilder.init with
            name := PyVal.str "analyst", role := PyVal.str "Data Analyst",
            goal := PyVal.str "Analyze data", backstory := PyVal.str "PhD",
            constraints := PyVal.list [PyVal.str "Use pandas"],
            llm_config := PyVal.dict [(("model"), PyVal.str "gpt-4")],
            version := PyVal.str "2025-03-14",
            metadata := [(("k"), PyVal.str "v")] } = Except.ok a
      ∧ ∃ b2, PersonaBuilder.from_dict PersonaBuilder.init (PyVal.dict (to_dict a)) = Except.ok b2
        ∧ ∃ a2, PersonaBuilder.build
              (PersonaBuilder.set_llm_config b2 (dictGetD (to_dict a) ("llm_config") PyVal.none))
            = Except.ok a2
          ∧ a2.role = a.role ∧ a2.goal = a.goal ∧ a2.backstory = a.backstory
          ∧ a2.constraints = a.constraints ∧ a2.version = a.version ∧ a2.metadata = a.metadata := by
  have hrt := to_dict_roundtrip
    { PersonaBuilder.init with
      name := PyVal.str "analyst", role := PyVal.str "Data Analyst",
      goal := PyVal.str "Analyze data", backstory := PyVal.str "PhD",
      constraints := PyVal.list [PyVal.str "Use pandas"],
      llm_config := PyVal.dict [(("model"), PyVal.str "gpt-4")],
      version := PyVal.str "2025-03-14",
      metadata := [(("k"), PyVal.str "v")] } _ rfl
  exact ⟨_, rfl, hrt⟩

end AG2Persona
